import Mathlib

/-!
Verification of the athlete classification and periodization derivation
engine of `wattgod/athlete-profiles`.

The engine is spread over the generator scripts; the definitions below are
shallow embeddings of the relevant functions:

* `get_risk_level`, `classify_rider_ability`, `calculate_days_until`,
  `calculate_ftp_age_weeks` from `src/athletes/scripts/generate_dashboard.py`;
* `_generate_atp_table` (phase templates, week rows), the underfueling
  blindspot of `_generate_blindspots`, `_generate_nutrition_section`
  and `_generate_race_timeline` from
  `src/athletes/scripts/generate_html_guide.py`.

Python numbers are modelled as `ℚ` (the float arithmetic of the source is
exact decimal arithmetic on every value appearing here), Python `int()`
truncation as `pytrunc`, dict lookups with defaults as record fields holding
the defaulted value, and `datetime.now()` / `date.today()` as an explicit
`today : ℤ` day-number argument.
-/

namespace AthleteEngine

/-- One entry of `injury_history.current_injuries`: a mapping whose
`severity` key `get_risk_level` reads with `.get` (a missing key is
modelled as the empty string). -/
structure Injury where
  severity : String
deriving DecidableEq

/-- The profile fields `generate_dashboard.get_risk_level` reads, after the
`.get(..., default)` defaulting of the call site: `injuries` list, health
dict (`stress_level`, `sleep_quality`), string values of the movement
`limitations` dict, schedule `travel_frequency`, lifestyle
`alcohol_drinks_per_week` (default 0) and nutrition `fuels_during_rides`. -/
structure RiskInputs where
  current_injuries : List Injury
  stress_level : String
  sleep_quality : String
  limitations : List String
  travel_frequency : String
  alcohol_drinks_per_week : ℚ
  fuels_during_rides : String
deriving DecidableEq

/-- `generate_dashboard.get_risk_level` (lines 220-238). -/
def get_risk_level (x : RiskInputs) : String :=
  if x.current_injuries ≠ [] ∧
      ∃ i ∈ x.current_injuries, (i.severity = "moderate" ∨ i.severity = "significant") then
    "HIGH"
  else if x.current_injuries ≠ [] then "MODERATE"
  else if x.stress_level = "high" ∨ x.stress_level = "very_high" then "MODERATE"
  else if x.sleep_quality = "poor" then "MODERATE"
  else if x.limitations ≠ [] ∧
      ∃ v ∈ x.limitations, (v = "limited" ∨ v = "significantly_limited" ∨ v = "painful") then
    "MODERATE"
  else if x.travel_frequency = "frequent" then "MODERATE"
  else if 10 < x.alcohol_drinks_per_week then "MODERATE"
  else if x.fuels_during_rides = "rarely" then "MODERATE"
  else "LOW"

/-- The profile fields `classify_rider_ability` reads, pre-defaulted as at
its call site: `years_cycling` bucket string (default "0-2"),
`years_structured` (default 0), `w_kg` (default 0), `last_12_weeks`
consistency (default "none") and `age` (default 0). -/
structure AbilityInputs where
  years_cycling : String
  years_structured : ℚ
  w_kg : ℚ
  consistency : String
  age : ℚ
deriving DecidableEq

/-- `generate_dashboard.classify_rider_ability` (lines 68-93). -/
def classify_rider_ability (x : AbilityInputs) : String :=
  if x.age ≥ 40 then
    if x.years_structured ≥ 5 ∧ x.w_kg ≥ 3.5 then "MASTERS ADVANCED"
    else if x.years_structured ≥ 2 then "MASTERS INTERMEDIATE"
    else "MASTERS BEGINNER"
  else if (x.years_cycling = "10+" ∨ x.years_cycling = "6-10") ∧
      x.years_structured ≥ 5 ∧ x.w_kg ≥ 4.0 then "ADVANCED"
  else if x.years_structured ≥ 3 ∧ x.w_kg ≥ 3.5 then "INTERMEDIATE"
  else if x.years_structured ≥ 1 ∨ x.consistency = "consistent" then "INTERMEDIATE"
  else "BEGINNER"

/-- `generate_dashboard.calculate_days_until`: `(target - date.today()).days`,
on dates modelled as day numbers. -/
def calculate_days_until (target today : ℤ) : ℤ := target - today

/-- `generate_dashboard.calculate_ftp_age_weeks`:
`(date.today() - test_date).days // 7` (Python `//` is floor division). -/
def calculate_ftp_age_weeks (test_day today : ℤ) : ℤ := (today - test_day).fdiv 7

/-- `_generate_race_timeline` weeks-out: `max(0, (race_date - datetime.now()).days // 7)`. -/
def weeks_out (race_day today : ℤ) : ℤ := max 0 ((race_day - today).fdiv 7)

/-- The pieces of the derived output the purity claim talks about: the
classification fields together with the two date-consuming values, with the
hidden `datetime.now()` / `date.today()` state made an explicit `today`
argument. -/
structure DerivedBundle where
  risk_level : String
  ability : String
  race_weeks_out : ℤ
  ftp_age_weeks : ℤ
deriving DecidableEq

/-- One derivation run: everything the engine computes from the profile
fields `r`, `a`, the target race day and the FTP test day, at current
day `today`. -/
def derive_bundle (r : RiskInputs) (a : AbilityInputs) (race_day ftp_day today : ℤ) :
    DerivedBundle :=
  ⟨get_risk_level r, classify_rider_ability a, weeks_out race_day today,
    calculate_ftp_age_weeks ftp_day today⟩

/-- A nonempty existence over a list forces the list nonempty (helper). -/
theorem exists_mem_ne_nil {α : Type} {l : List α} {p : α → Prop}
    (h : ∃ a ∈ l, p a) : l ≠ [] := by
  rcases h with ⟨a, ha, -⟩
  exact List.ne_nil_of_mem ha

/-- The guarded existence the source writes (`if injuries and any(...)`)
is equivalent to the plain existence (helper). -/
theorem ne_nil_and_exists_iff {α : Type} {l : List α} {p : α → Prop} :
    (l ≠ [] ∧ ∃ a ∈ l, p a) ↔ ∃ a ∈ l, p a :=
  ⟨fun h => h.2, fun h => ⟨exists_mem_ne_nil h, h⟩⟩

/-- Helper: the HIGH branch of `get_risk_level` in claim language. -/
theorem risk_high_iff (x : RiskInputs) :
    get_risk_level x = "HIGH" ↔
      ∃ i ∈ x.current_injuries, (i.severity = "moderate" ∨ i.severity = "significant") := by
  unfold get_risk_level
  split_ifs with h1 h2 h3 h4 h5 h6 h7 h8 <;>
    simp_all [ne_nil_and_exists_iff] <;> tauto

/-- Helper: the MODERATE branch of `get_risk_level` in claim language. -/
theorem risk_moderate_iff (x : RiskInputs) :
    get_risk_level x = "MODERATE" ↔
      (¬ ∃ i ∈ x.current_injuries, (i.severity = "moderate" ∨ i.severity = "significant")) ∧
      (x.current_injuries ≠ [] ∨
       x.stress_level = "high" ∨ x.stress_level = "very_high" ∨
       x.sleep_quality = "poor" ∨
       (∃ v ∈ x.limitations, (v = "limited" ∨ v = "significantly_limited" ∨ v = "painful")) ∨
       x.travel_frequency = "frequent" ∨
       10 < x.alcohol_drinks_per_week ∨
       x.fuels_during_rides = "rarely") := by
  unfold get_risk_level
  split_ifs with h1 h2 h3 h4 h5 h6 h7 h8 <;>
    simp_all [ne_nil_and_exists_iff] <;> tauto

/-- Helper: the LOW branch of `get_risk_level` in claim language. -/
theorem risk_low_iff (x : RiskInputs) :
    get_risk_level x = "LOW" ↔
      (¬ ∃ i ∈ x.current_injuries, (i.severity = "moderate" ∨ i.severity = "significant")) ∧
      ¬ (x.current_injuries ≠ [] ∨
       x.stress_level = "high" ∨ x.stress_level = "very_high" ∨
       x.sleep_quality = "poor" ∨
       (∃ v ∈ x.limitations, (v = "limited" ∨ v = "significantly_limited" ∨ v = "painful")) ∨
       x.travel_frequency = "frequent" ∨
       10 < x.alcohol_drinks_per_week ∨
       x.fuels_during_rides = "rarely") := by
  unfold get_risk_level
  split_ifs with h1 h2 h3 h4 h5 h6 h7 h8 <;>
    simp_all [ne_nil_and_exists_iff] <;> tauto

/-- C1: the computed risk level is HIGH iff some current injury has severity
moderate or significant; otherwise MODERATE iff some moderate trigger holds
(injury present, high or very-high stress, poor sleep, a limiting movement
restriction, frequent travel, more than 10 alcoholic drinks per week, or
rarely fueling during rides); otherwise LOW; and it is always one of the
three values. -/
theorem risk_level_rule (x : RiskInputs) :
    (get_risk_level x = "HIGH" ↔
      ∃ i ∈ x.current_injuries, (i.severity = "moderate" ∨ i.severity = "significant")) ∧
    (get_risk_level x = "MODERATE" ↔
      (¬ ∃ i ∈ x.current_injuries, (i.severity = "moderate" ∨ i.severity = "significant")) ∧
      (x.current_injuries ≠ [] ∨
       x.stress_level = "high" ∨ x.stress_level = "very_high" ∨
       x.sleep_quality = "poor" ∨
       (∃ v ∈ x.limitations, (v = "limited" ∨ v = "significantly_limited" ∨ v = "painful")) ∨
       x.travel_frequency = "frequent" ∨
       10 < x.alcohol_drinks_per_week ∨
       x.fuels_during_rides = "rarely")) ∧
    (get_risk_level x = "LOW" ↔
      (¬ ∃ i ∈ x.current_injuries, (i.severity = "moderate" ∨ i.severity = "significant")) ∧
      ¬ (x.current_injuries ≠ [] ∨
       x.stress_level = "high" ∨ x.stress_level = "very_high" ∨
       x.sleep_quality = "poor" ∨
       (∃ v ∈ x.limitations, (v = "limited" ∨ v = "significantly_limited" ∨ v = "painful")) ∨
       x.travel_frequency = "frequent" ∨
       10 < x.alcohol_drinks_per_week ∨
       x.fuels_during_rides = "rarely")) ∧
    (get_risk_level x = "LOW" ∨ get_risk_level x = "MODERATE" ∨ get_risk_level x = "HIGH") := by
  refine ⟨risk_high_iff x, risk_moderate_iff x, risk_low_iff x, ?_⟩
  unfold get_risk_level
  split_ifs <;> simp

/-- C7: for every profile with age at least 40, the classifier returns a
Masters sub-label gated only on years of structured training and W/kg:
MASTERS ADVANCED iff `years_structured ≥ 5` and `w_kg ≥ 3.5`, otherwise
MASTERS INTERMEDIATE iff `years_structured ≥ 2`, else MASTERS BEGINNER;
and the input `age=45, years_structured=6, w_kg=3.8` yields
MASTERS ADVANCED. -/
theorem masters_ability_rule (x : AbilityInputs) (h : x.age ≥ 40) :
    (classify_rider_ability x = "MASTERS ADVANCED" ↔
      (x.years_structured ≥ 5 ∧ x.w_kg ≥ 3.5)) ∧
    (classify_rider_ability x = "MASTERS INTERMEDIATE" ↔
      (¬ (x.years_structured ≥ 5 ∧ x.w_kg ≥ 3.5) ∧ x.years_structured ≥ 2)) ∧
    (classify_rider_ability x = "MASTERS BEGINNER" ↔
      (¬ (x.years_structured ≥ 5 ∧ x.w_kg ≥ 3.5) ∧ ¬ x.years_structured ≥ 2)) ∧
    classify_rider_ability ⟨"0-2", 6, 3.8, "none", 45⟩ = "MASTERS ADVANCED" := by
  unfold classify_rider_ability
  rw [if_pos h]
  refine ⟨?_, ?_, ?_, by norm_num⟩ <;> split_ifs with h1 h2 <;> simp_all

/-- Witness for `masters_ability_rule` at the example input of the spec. -/
theorem masters_ability_rule_witness :
    (45 : ℚ) ≥ 40 ∧
    ((classify_rider_ability ⟨"0-2", 6, 3.8, "none", 45⟩ = "MASTERS ADVANCED" ↔
      ((6 : ℚ) ≥ 5 ∧ (3.8 : ℚ) ≥ 3.5)) ∧
    (classify_rider_ability ⟨"0-2", 6, 3.8, "none", 45⟩ = "MASTERS INTERMEDIATE" ↔
      (¬ ((6 : ℚ) ≥ 5 ∧ (3.8 : ℚ) ≥ 3.5) ∧ (6 : ℚ) ≥ 2)) ∧
    (classify_rider_ability ⟨"0-2", 6, 3.8, "none", 45⟩ = "MASTERS BEGINNER" ↔
      (¬ ((6 : ℚ) ≥ 5 ∧ (3.8 : ℚ) ≥ 3.5) ∧ ¬ (6 : ℚ) ≥ 2)) ∧
    classify_rider_ability ⟨"0-2", 6, 3.8, "none", 45⟩ = "MASTERS ADVANCED") :=
  ⟨by norm_num, masters_ability_rule ⟨"0-2", 6, 3.8, "none", 45⟩ (by norm_num)⟩

/-! ### Periodization planner (`_generate_atp_table`, generate_html_guide.py) -/

/-- One `(start, end, name, css_class)` tuple of the `phase_ranges` list. -/
structure PhaseRange where
  start : ℤ
  stop : ℤ
  pname : String
  cls : String
deriving DecidableEq

/-- The three plan-length templates of `_generate_atp_table`
(lines 1824-1844). -/
def phase_ranges (plan_weeks : ℤ) : List PhaseRange :=
  if plan_weeks ≥ 20 then
    [⟨1, 4, "Base", "base"⟩, ⟨5, 12, "Build", "build"⟩,
     ⟨13, 18, "Peak", "peak"⟩, ⟨19, plan_weeks, "Taper", "taper"⟩]
  else if plan_weeks ≥ 12 then
    [⟨1, 3, "Base", "base"⟩, ⟨4, 7, "Build", "build"⟩,
     ⟨8, 10, "Peak", "peak"⟩, ⟨11, plan_weeks, "Taper", "taper"⟩]
  else
    [⟨1, 2, "Base", "base"⟩, ⟨3, 5, "Build", "build"⟩,
     ⟨6, plan_weeks - 1, "Peak", "peak"⟩, ⟨plan_weeks, plan_weeks, "Taper", "taper"⟩]

/-- The inner `get_phase` of `_generate_atp_table`: first range containing
the week wins, default `('Build', 'build')`. -/
def get_phase : List PhaseRange → ℤ → String × String
  | [], _ => ("Build", "build")
  | r :: rs, week =>
    if r.start ≤ week ∧ week ≤ r.stop then (r.pname, r.cls) else get_phase rs week

/-- The volume-label cycle `['Low', 'Medium', 'High', 'Peak']`. -/
def volume_labels : List String := ["Low", "Medium", "High", "Peak"]

/-- One row of the ATP table: week number, phase, recovery flag and volume
label, as computed in the week loop of `_generate_atp_table`
(lines 1884-1894). -/
structure WeekRow where
  week : ℤ
  phase_name : String
  phase_class : String
  is_recovery : Bool
  volume_label : String
deriving DecidableEq

/-- The computation of one week row: phase via `get_phase`, recovery flag
`week % 4 == 0 and phase_name not in ['Taper']`, volume label `'Recovery'`
when recovering else `['Low','Medium','High','Peak'][min(3, week % 4)]`. -/
def week_row (plan_weeks week : ℤ) : WeekRow :=
  { week := week
    phase_name := (get_phase (phase_ranges plan_weeks) week).1
    phase_class := (get_phase (phase_ranges plan_weeks) week).2
    is_recovery :=
      decide (week % 4 = 0 ∧ (get_phase (phase_ranges plan_weeks) week).1 ≠ "Taper")
    volume_label :=
      if week % 4 = 0 ∧ (get_phase (phase_ranges plan_weeks) week).1 ≠ "Taper" then
        "Recovery"
      else volume_labels.getD (min 3 (week % 4)).toNat "" }

/-- The rows of the ATP table: `for week in range(1, plan_weeks + 1)`. -/
def atp_weeks (plan_weeks : ℤ) : List WeekRow :=
  (List.range plan_weeks.toNat).map (fun k : ℕ => week_row plan_weeks ((k : ℤ) + 1))

/-- `plan_weeks = self.derived.get('plan_weeks', 12)`: the default 12
applies only when the key is absent. -/
def plan_weeks_or_default (o : Option ℤ) : ℤ := o.getD 12

/-- Helper: `get_phase` yields the default "Build" or the name of one of
its ranges. -/
theorem get_phase_name_mem (rs : List PhaseRange) (w : ℤ) :
    (get_phase rs w).1 = "Build" ∨ (get_phase rs w).1 ∈ rs.map (fun r => r.pname) := by
  induction rs with
  | nil => left; rfl
  | cons r rs ih =>
    unfold get_phase
    split_ifs with h
    · right; simp
    · rcases ih with h1 | h1
      · left; exact h1
      · right; simp only [List.map_cons, List.mem_cons]; right; exact h1

/-- Helper: every template names exactly the four cycling phases. -/
theorem phase_ranges_names (pw : ℤ) :
    (phase_ranges pw).map (fun r => r.pname) = ["Base", "Build", "Peak", "Taper"] := by
  unfold phase_ranges
  split_ifs <;> rfl

/-- C2 counterexample: at `plan_weeks = 4` the chosen template is not a
partition of `[1, 4]`: week 4 lies in two ranges (Build 3-5 and Taper 4-4),
and the Build range also contains week 5 which is outside the plan. -/
theorem atp_ranges_overlap_cex :
    (phase_ranges 4).countP (fun r => decide (r.start ≤ (4 : ℤ) ∧ (4 : ℤ) ≤ r.stop)) = 2 ∧
    (phase_ranges 4).countP (fun r => decide (r.start ≤ (5 : ℤ) ∧ (5 : ℤ) ≤ r.stop)) = 1 := by
  decide

/-- C2 (amended): for every `plan_weeks ≥ 1` the planner produces exactly
`plan_weeks` rows numbered 1 through `plan_weeks`, each assigned exactly one
phase drawn from Base, Build, Peak, Taper; the template ranges are
contiguous (each starts right after the previous one ends); and for
`plan_weeks ≥ 6` every week of the plan lies in exactly one range (for
plans of 1 to 5 weeks the final week lies in two ranges and the earlier
phase wins, as the counterexample shows). -/
theorem atp_plan_structure (pw : ℤ) (h : 1 ≤ pw) :
    (atp_weeks pw).length = pw.toNat ∧
    (atp_weeks pw).map (fun r => r.week) =
      (List.range pw.toNat).map (fun k : ℕ => (k : ℤ) + 1) ∧
    (∀ row ∈ atp_weeks pw, row.phase_name ∈ ["Base", "Build", "Peak", "Taper"]) ∧
    (phase_ranges pw).Chain' (fun r s => s.start = r.stop + 1) ∧
    (6 ≤ pw → ∀ w : ℤ, 1 ≤ w → w ≤ pw →
      (phase_ranges pw).countP (fun r => decide (r.start ≤ w ∧ w ≤ r.stop)) = 1) := by
  refine ⟨by unfold atp_weeks; rw [List.length_map, List.length_range],
    by simp [atp_weeks, week_row], ?_, ?_, ?_⟩
  · intro row hrow
    obtain ⟨k, hk, rfl⟩ := List.mem_map.1 hrow
    have hmem := get_phase_name_mem (phase_ranges pw) ((k : ℤ) + 1)
    rw [phase_ranges_names] at hmem
    have : (week_row pw ((k : ℤ) + 1)).phase_name =
        (get_phase (phase_ranges pw) ((k : ℤ) + 1)).1 := rfl
    rw [this]
    rcases hmem with h1 | h1
    · rw [h1]; simp
    · exact h1
  · unfold phase_ranges
    split_ifs <;> simp [List.chain'_cons] <;> omega
  · intro h6 w hw1 hw2
    unfold phase_ranges
    split_ifs with ha hb <;>
      simp only [List.countP_cons, List.countP_nil, decide_eq_true_eq] <;>
      split_ifs <;> omega

/-- Witness for `atp_plan_structure` at the 12-week plan. -/
theorem atp_plan_structure_witness :
    (1 : ℤ) ≤ 12 ∧
    ((atp_weeks 12).length = (12 : ℤ).toNat ∧
    (atp_weeks 12).map (fun r => r.week) =
      (List.range (12 : ℤ).toNat).map (fun k : ℕ => (k : ℤ) + 1) ∧
    (∀ row ∈ atp_weeks 12, row.phase_name ∈ ["Base", "Build", "Peak", "Taper"]) ∧
    (phase_ranges 12).Chain' (fun r s => s.start = r.stop + 1) ∧
    (6 ≤ (12 : ℤ) → ∀ w : ℤ, 1 ≤ w → w ≤ 12 →
      (phase_ranges 12).countP (fun r => decide (r.start ≤ w ∧ w ≤ r.stop)) = 1)) :=
  ⟨by norm_num, atp_plan_structure 12 (by norm_num)⟩

/-- C3: in every plan, a week row is flagged recovery iff its week number is
divisible by 4 and its phase is not Taper; a recovery week is labelled
`Recovery`, and any other week gets the label at index `week % 4` of
`[Low, Medium, High, Peak]`. -/
theorem recovery_week_rule (pw : ℤ) (row : WeekRow) (h : row ∈ atp_weeks pw) :
    (row.is_recovery = true ↔ (row.week % 4 = 0 ∧ row.phase_name ≠ "Taper")) ∧
    (row.is_recovery = true → row.volume_label = "Recovery") ∧
    (row.is_recovery = false →
      row.volume_label = volume_labels.getD (row.week % 4).toNat "") := by
  obtain ⟨k, hk, rfl⟩ := List.mem_map.1 h
  have h0 : (0 : ℤ) ≤ ((k : ℤ) + 1) % 4 := Int.emod_nonneg _ (by norm_num)
  have h4 : ((k : ℤ) + 1) % 4 < 4 := Int.emod_lt_of_pos _ (by norm_num)
  have hmin : min (3 : ℤ) (((k : ℤ) + 1) % 4) = ((k : ℤ) + 1) % 4 := by omega
  refine ⟨by simp [week_row], ?_, ?_⟩
  · intro hrec
    have hp : ((k : ℤ) + 1) % 4 = 0 ∧
        (get_phase (phase_ranges pw) ((k : ℤ) + 1)).1 ≠ "Taper" := by
      simpa [week_row] using hrec
    show (if ((k : ℤ) + 1) % 4 = 0 ∧
        (get_phase (phase_ranges pw) ((k : ℤ) + 1)).1 ≠ "Taper" then "Recovery"
      else volume_labels.getD (min 3 (((k : ℤ) + 1) % 4)).toNat "") = "Recovery"
    rw [if_pos hp]
  · intro hrec
    have hp : ¬ (((k : ℤ) + 1) % 4 = 0 ∧
        (get_phase (phase_ranges pw) ((k : ℤ) + 1)).1 ≠ "Taper") := by
      simpa [week_row] using hrec
    show (if ((k : ℤ) + 1) % 4 = 0 ∧
        (get_phase (phase_ranges pw) ((k : ℤ) + 1)).1 ≠ "Taper" then "Recovery"
      else volume_labels.getD (min 3 (((k : ℤ) + 1) % 4)).toNat "") =
      volume_labels.getD ((((k : ℤ) + 1) % 4)).toNat ""
    rw [if_neg hp, hmin]

/-- Witness for `recovery_week_rule`: week 8 of the 12-week plan (a Peak
week divisible by 4, hence a flagged recovery week). -/
theorem recovery_week_rule_witness :
    week_row 12 8 ∈ atp_weeks 12 ∧
    (((week_row 12 8).is_recovery = true ↔
      ((week_row 12 8).week % 4 = 0 ∧ (week_row 12 8).phase_name ≠ "Taper")) ∧
    ((week_row 12 8).is_recovery = true → (week_row 12 8).volume_label = "Recovery") ∧
    ((week_row 12 8).is_recovery = false →
      (week_row 12 8).volume_label = volume_labels.getD ((week_row 12 8).week % 4).toNat "")) :=
  ⟨by decide, recovery_week_rule 12 (week_row 12 8) (by decide)⟩

/-- C9 counterexample: a non-positive `plan_weeks` is not rejected — no
exception of any kind exists in `_generate_atp_table` (the embedding is
total) and the planner just returns a schedule with zero week rows. -/
theorem atp_nonpositive_cex : atp_weeks 0 = [] ∧ atp_weeks (-5) = [] := by decide

/-- C9 (amended): for every `plan_weeks ≤ 0` the planner raises nothing and
produces an empty week list (the week loop body never runs); the sane
default of 12 applies only when `plan_weeks` is absent from the derived
record, not when it is non-positive. -/
theorem atp_nonpositive_plan (pw : ℤ) (h : pw ≤ 0) :
    atp_weeks pw = [] ∧ plan_weeks_or_default none = 12 := by
  refine ⟨?_, rfl⟩
  simp [atp_weeks, Int.toNat_of_nonpos h]

/-- Witness for `atp_nonpositive_plan` at `plan_weeks = -1`. -/
theorem atp_nonpositive_plan_witness :
    (-1 : ℤ) ≤ 0 ∧ (atp_weeks (-1) = [] ∧ plan_weeks_or_default none = 12) :=
  ⟨by norm_num, atp_nonpositive_plan (-1) (by norm_num)⟩

/-! ### Nutrition target calculator (`_generate_nutrition_section`, generate_html_guide.py) -/

/-- Python `int()` truncation toward zero, on a rational. -/
def pytrunc (q : ℚ) : ℤ := if 0 ≤ q then ⌊q⌋ else ⌈q⌉

/-- The resolved inputs of `_generate_nutrition_section` (lines 2795-2829)
after its `or`-defaulting chains: weight (default 70 kg), height (default
175 cm), FTP (default 200 W), weekly cycling hours (default 10), age
(default 35), lowercased sex (default "male"), lifestyle `active_job`
(default False) and `weight_goal` (default "maintain"). -/
structure NutritionInputs where
  weight_kg : ℚ
  height_cm : ℚ
  ftp : ℚ
  cycling_hours : ℚ
  age : ℚ
  sex : String
  active_job : Bool
  weight_goal : String
deriving DecidableEq

/-- Mifflin-St Jeor BMR (lines 2832-2835). -/
def nutrition_bmr (x : NutritionInputs) : ℚ :=
  if x.sex = "male" then 10 * x.weight_kg + 6.25 * x.height_cm - 5 * x.age + 5
  else 10 * x.weight_kg + 6.25 * x.height_cm - 5 * x.age - 161

/-- `activity_level = 'moderately_active' if active_job else 'sedentary'`
(line 2826). -/
def activity_level (x : NutritionInputs) : String :=
  if x.active_job then "moderately_active" else "sedentary"

/-- The activity-multiplier table (lines 2838-2844), default 1.2. -/
def activity_multiplier (level : String) : ℚ :=
  if level = "sedentary" then 1.2
  else if level = "lightly_active" then 1.375
  else if level = "moderately_active" then 1.55
  else if level = "very_active" then 1.725
  else 1.2

/-- `base_tdee = bmr * activity_multiplier` (line 2844). -/
def base_tdee (x : NutritionInputs) : ℚ :=
  nutrition_bmr x * activity_multiplier (activity_level x)

/-- Average daily training expenditure (lines 2847-2850):
`(ftp * 0.7 / 75) * 5 * (cycling_hours / 7) * 60`. -/
def cycling_kcal (x : NutritionInputs) : ℚ :=
  (x.ftp * 0.7 / 75) * 5 * (x.cycling_hours / 7) * 60

/-- Daily calories after the weight-goal adjustment (lines 2853-2861). -/
def daily_kcal (x : NutritionInputs) : ℚ :=
  let dk := base_tdee x + cycling_kcal x
  if x.weight_goal = "lose_slow" then dk - 300
  else if x.weight_goal = "lose_fast" then dk - 500
  else if x.weight_goal = "gain" then dk + 300
  else dk

/-- Carbohydrate g/kg by weekly-hours bucket (lines 2865-2872). -/
def cho_per_kg (x : NutritionInputs) : ℚ :=
  if x.cycling_hours ≤ 6 then 4.5
  else if x.cycling_hours ≤ 10 then 5.5
  else if x.cycling_hours ≤ 15 then 6.5
  else 7.5

/-- `cho_grams = int(weight_kg * cho_per_kg)` (line 2874). -/
def cho_grams (x : NutritionInputs) : ℤ := pytrunc (x.weight_kg * cho_per_kg x)

/-- Protein g/kg (lines 2877-2881): 1.8 baseline, 2.0 for a loss goal,
raised to `max(pro_per_kg, 2.0)` at age 50 or over. -/
def pro_per_kg (x : NutritionInputs) : ℚ :=
  let p : ℚ :=
    if x.weight_goal = "lose_slow" ∨ x.weight_goal = "lose_fast" then 2.0 else 1.8
  if x.age ≥ 50 then max p 2.0 else p

/-- `pro_grams = int(weight_kg * pro_per_kg)` (line 2883). -/
def pro_grams (x : NutritionInputs) : ℤ := pytrunc (x.weight_kg * pro_per_kg x)

/-- `min_fat = int(weight_kg * 0.8)` (line 2886). -/
def min_fat (x : NutritionInputs) : ℤ := pytrunc (x.weight_kg * 0.8)

/-- `remaining_kcal = daily_kcal - (cho_grams * 4) - (pro_grams * 4)`
(line 2887). -/
def remaining_kcal (x : NutritionInputs) : ℚ :=
  daily_kcal x - (cho_grams x : ℚ) * 4 - (pro_grams x : ℚ) * 4

/-- `fat_grams = max(min_fat, int(remaining_kcal / 9))` (line 2888). -/
def fat_grams (x : NutritionInputs) : ℤ :=
  max (min_fat x) (pytrunc (remaining_kcal x / 9))

/-- `total_kcal = int(cho*4 + pro*4 + fat*9)` (line 2891). -/
def total_kcal (x : NutritionInputs) : ℤ :=
  cho_grams x * 4 + pro_grams x * 4 + fat_grams x * 9

/-- Truncation of a nonnegative rational is its floor (helper). -/
theorem pytrunc_of_nonneg {q : ℚ} (h : 0 ≤ q) : pytrunc q = ⌊q⌋ := if_pos h

/-- The ceiling as a negated floor (helper, for evaluating `pytrunc` on
negative rationals). -/
theorem ceil_eq_neg_floor_neg (q : ℚ) : ⌈q⌉ = -⌊-q⌋ := by
  simpa using (Int.ceil_neg (a := -q))

/-- The C4 counterexample input: 100 kg, 150 cm, FTP 100 W, 1 weekly hour,
age 60, female, sedentary, goal `lose_fast`. -/
def c4cex : NutritionInputs := ⟨100, 150, 100, 1, 60, "female", false, "lose_fast"⟩

/-- The all-defaults athlete (70 kg, 175 cm, 200 W, 10 h, 35 y, male,
sedentary, maintain), used as the C4 witness input. -/
def c4avg : NutritionInputs := ⟨70, 175, 200, 10, 35, "male", false, "maintain"⟩

/-- The C8 example input of the spec: 70 kg, 175 cm default height, FTP
220 W, 10 weekly hours, age 35, male, maintain. -/
def c8ex : NutritionInputs := ⟨70, 175, 220, 10, 35, "male", false, "maintain"⟩

/-- C4 counterexample: for `c4cex` the target is 1311.8 kcal but the
0.8 g/kg fat floor forces the macro calories to 3320 kcal, more than
2000 kcal above the target and far outside the claimed 5 kcal tolerance. -/
theorem nutrition_tolerance_cex :
    daily_kcal c4cex = 6559 / 5 ∧ total_kcal c4cex = 3320 ∧
    ¬ |(total_kcal c4cex : ℚ) - daily_kcal c4cex| ≤ 5 := by
  have hd : daily_kcal c4cex = 6559 / 5 := by
    simp [daily_kcal, base_tdee, nutrition_bmr, activity_level, activity_multiplier,
      cycling_kcal, c4cex]
    norm_num
  have hcho : cho_grams c4cex = 450 := by
    rw [cho_grams, show c4cex.weight_kg * cho_per_kg c4cex = 450 by
      simp [cho_per_kg, c4cex]; norm_num]
    rw [pytrunc_of_nonneg (by norm_num)]
    norm_num
  have hpro : pro_grams c4cex = 200 := by
    rw [pro_grams, show c4cex.weight_kg * pro_per_kg c4cex = 200 by
      simp [pro_per_kg, c4cex]; norm_num]
    rw [pytrunc_of_nonneg (by norm_num)]
    norm_num
  have hrem : remaining_kcal c4cex = -6441 / 5 := by
    rw [remaining_kcal, hd, hcho, hpro]
    norm_num
  have hfat : fat_grams c4cex = 80 := by
    have hmf : min_fat c4cex = 80 := by
      rw [min_fat, show c4cex.weight_kg * (0.8 : ℚ) = 80 by simp [c4cex]; norm_num]
      rw [pytrunc_of_nonneg (by norm_num)]
      norm_num
    have htr : pytrunc (remaining_kcal c4cex / 9) = -144 + 1 := by
      rw [hrem, pytrunc, if_neg (by norm_num), ceil_eq_neg_floor_neg]
      norm_num
    rw [fat_grams, hmf, htr]
    norm_num
  have ht : total_kcal c4cex = 3320 := by
    rw [total_kcal, hcho, hpro, hfat]
    norm_num
  refine ⟨hd, ht, ?_⟩
  rw [ht, hd, show ((3320 : ℤ) : ℚ) - 6559 / 5 = 10041 / 5 by norm_num,
    abs_of_nonneg (by norm_num)]
  norm_num

/-- C4 (amended): whenever the remainder of calories after carbs and protein
is nonnegative and the 0.8 g/kg fat floor does not bind, the final macro
calories `cho*4 + pro*4 + fat*9` land within 9 kcal below the target daily
calories (the `int()` truncation of the fat remainder loses up to 9 kcal,
so the one-sided tolerance is 9, not 5); when the floor binds, the macro
calories exceed the target without bound, as the counterexample shows. -/
theorem nutrition_macro_kcal_bound (x : NutritionInputs)
    (h0 : 0 ≤ remaining_kcal x)
    (hf : min_fat x ≤ pytrunc (remaining_kcal x / 9)) :
    daily_kcal x - 9 < (total_kcal x : ℚ) ∧ (total_kcal x : ℚ) ≤ daily_kcal x := by
  have h9 : (0 : ℚ) ≤ remaining_kcal x / 9 := by positivity
  have htr : pytrunc (remaining_kcal x / 9) = ⌊remaining_kcal x / 9⌋ := if_pos h9
  have hfat : fat_grams x = ⌊remaining_kcal x / 9⌋ := by
    rw [fat_grams, max_eq_right hf, htr]
  have hle : (⌊remaining_kcal x / 9⌋ : ℚ) ≤ remaining_kcal x / 9 := Int.floor_le _
  have hlt : remaining_kcal x / 9 < ⌊remaining_kcal x / 9⌋ + 1 := Int.lt_floor_add_one _
  have hid : (total_kcal x : ℚ) =
      daily_kcal x - remaining_kcal x + 9 * (⌊remaining_kcal x / 9⌋ : ℚ) := by
    rw [total_kcal, hfat]
    push_cast
    rw [remaining_kcal]
    ring
  constructor <;> rw [hid] <;> linarith

/-- Witness for `nutrition_macro_kcal_bound` at the all-defaults athlete
`c4avg`. -/
theorem nutrition_macro_kcal_bound_witness :
    (0 ≤ remaining_kcal c4avg ∧ min_fat c4avg ≤ pytrunc (remaining_kcal c4avg / 9)) ∧
    (daily_kcal c4avg - 9 < (total_kcal c4avg : ℚ) ∧
      (total_kcal c4avg : ℚ) ≤ daily_kcal c4avg) := by
  have hd : daily_kcal c4avg = 5497 / 2 := by
    simp [daily_kcal, base_tdee, nutrition_bmr, activity_level, activity_multiplier,
      cycling_kcal, c4avg]
    norm_num
  have hcho : cho_grams c4avg = 385 := by
    rw [cho_grams, show c4avg.weight_kg * cho_per_kg c4avg = 385 by
      simp [cho_per_kg, c4avg]; norm_num]
    rw [pytrunc_of_nonneg (by norm_num)]
    norm_num
  have hpro : pro_grams c4avg = 126 := by
    rw [pro_grams, show c4avg.weight_kg * pro_per_kg c4avg = 126 by
      simp [pro_per_kg, c4avg]; norm_num]
    rw [pytrunc_of_nonneg (by norm_num)]
    norm_num
  have hrem : remaining_kcal c4avg = 1409 / 2 := by
    rw [remaining_kcal, hd, hcho, hpro]
    norm_num
  have h0 : 0 ≤ remaining_kcal c4avg := by rw [hrem]; norm_num
  have hf : min_fat c4avg ≤ pytrunc (remaining_kcal c4avg / 9) := by
    have hmf : min_fat c4avg = 56 := by
      rw [min_fat, show c4avg.weight_kg * (0.8 : ℚ) = 56 by simp [c4avg]; norm_num]
      rw [pytrunc_of_nonneg (by norm_num)]
      norm_num
    have : pytrunc (remaining_kcal c4avg / 9) = 78 := by
      rw [hrem, pytrunc_of_nonneg (by norm_num)]
      norm_num
    rw [hmf, this]
    norm_num
  exact ⟨⟨h0, hf⟩, nutrition_macro_kcal_bound c4avg h0 hf⟩

/-- C8 counterexample: at the example input `c8ex` (70 kg, 175 cm, 220 W,
10 h, age 35, male, maintain) the Mifflin-St Jeor BMR is
`10*70 + 6.25*175 - 5*35 + 5 = 1623.75` kcal, not approximately 1673 kcal:
it misses the claimed value by more than 40 kcal. -/
theorem nutrition_bmr_example_cex :
    nutrition_bmr c8ex = 1623.75 ∧ ¬ |nutrition_bmr c8ex - 1673| ≤ 40 := by
  have hb : nutrition_bmr c8ex = 1623.75 := by
    simp [nutrition_bmr, c8ex]
    norm_num
  refine ⟨hb, ?_⟩
  rw [hb, show (1623.75 : ℚ) - 1673 = -(197 / 4) by norm_num, abs_neg,
    abs_of_nonneg (by norm_num)]
  norm_num

/-- C8 (amended): for weekly hours 10, weight 70 kg, male, age 35, FTP
220 W, goal maintain (other fields at their defaults) the carbohydrate
target is `70 * 5.5 = 385` g and the protein target `70 * 1.8 = 126` g as
claimed, but the Mifflin-St Jeor BMR is 1623.75 kcal (approximately 1624,
not 1673). -/
theorem nutrition_example_targets :
    cho_grams c8ex = 385 ∧ pro_grams c8ex = 126 ∧ nutrition_bmr c8ex = 1623.75 := by
  have hcho : cho_grams c8ex = 385 := by
    rw [cho_grams, show c8ex.weight_kg * cho_per_kg c8ex = 385 by
      simp [cho_per_kg, c8ex]; norm_num]
    rw [pytrunc_of_nonneg (by norm_num)]
    norm_num
  have hpro : pro_grams c8ex = 126 := by
    rw [pro_grams, show c8ex.weight_kg * pro_per_kg c8ex = 126 by
      simp [pro_per_kg, c8ex]; norm_num]
    rw [pytrunc_of_nonneg (by norm_num)]
    norm_num
  have hb : nutrition_bmr c8ex = 1623.75 := by
    simp [nutrition_bmr, c8ex]
    norm_num
  exact ⟨hcho, hpro, hb⟩

/-! ### Underfueling blindspot (`_generate_blindspots`, generate_html_guide.py,
lines 1697-1727) -/

/-- The profile fields the underfueling check reads, pre-defaulted:
nutrition `daily_carbs_g_per_kg` (default 0), `fuels_during_rides` (default
empty string), `eating_disorder_history` (default False), top-level
`weight_loss_goal` (default False) and availability `cycling_hours_target`
(default 0). -/
structure UnderfuelInputs where
  daily_carbs_g_per_kg : ℚ
  fuels_during_rides : String
  eating_disorder_history : Bool
  weight_loss_goal : Bool
  cycling_hours_target : ℚ
deriving DecidableEq

/-- The `underfueling_signals` list (lines 1705-1718), one tag per fired
signal; note the source fires the low-carb signal only for a reported
positive intake (`daily_carbs > 0 and daily_carbs < 3`) and the
high-volume signal only when `fuels_during_rides` is empty. -/
def underfueling_signals (x : UnderfuelInputs) : List String :=
  (if 0 < x.daily_carbs_g_per_kg ∧ x.daily_carbs_g_per_kg < 3 then
    ["low daily carb intake"] else []) ++
  (if x.fuels_during_rides = "never" ∨ x.fuels_during_rides = "rarely" then
    ["rarely fueling during rides"] else []) ++
  (if x.eating_disorder_history then ["history of disordered eating"] else []) ++
  (if x.weight_loss_goal then ["active weight loss goal during training"] else []) ++
  (if 10 < x.cycling_hours_target ∧ x.fuels_during_rides = "" then
    ["high training volume without mentioned fueling strategy"] else [])

/-- The underfueling blindspot (lines 1720-1727): `some severity` when the
signal list is nonempty, `none` otherwise; severity `high` when a
disordered-eating history is present or at least two signals fired, else
`medium`. -/
def underfueling_blindspot (x : UnderfuelInputs) : Option String :=
  if underfueling_signals x ≠ [] then
    some (if x.eating_disorder_history ∨ 2 ≤ (underfueling_signals x).length then "high"
      else "medium")
  else none

/-- C5: the underfueling blindspot is emitted iff at least one of the five
signals fires (reported daily carbs positive but below 3 g/kg,
never/rarely fueling during rides, disordered-eating history, active
weight-loss goal, or over 10 weekly hours with no stated fueling
strategy); its severity is high exactly when a disordered-eating history
is present or at least two signals co-occur, and medium otherwise. -/
theorem underfueling_rule (x : UnderfuelInputs) :
    ((underfueling_blindspot x).isSome ↔
      ((0 < x.daily_carbs_g_per_kg ∧ x.daily_carbs_g_per_kg < 3) ∨
       (x.fuels_during_rides = "never" ∨ x.fuels_during_rides = "rarely") ∨
       x.eating_disorder_history = true ∨
       x.weight_loss_goal = true ∨
       (10 < x.cycling_hours_target ∧ x.fuels_during_rides = ""))) ∧
    (underfueling_blindspot x = some "high" ↔
      ((underfueling_blindspot x).isSome ∧
       (x.eating_disorder_history = true ∨ 2 ≤ (underfueling_signals x).length))) ∧
    (underfueling_blindspot x = some "medium" ↔
      ((underfueling_blindspot x).isSome ∧
       ¬ (x.eating_disorder_history = true ∨ 2 ≤ (underfueling_signals x).length))) := by
  unfold underfueling_blindspot underfueling_signals
  split_ifs <;> simp_all <;> tauto

/-! ### Race calendar normalizer (`_generate_race_timeline`,
generate_html_guide.py, lines 1295-1339) -/

/-- A parsed `YYYY-MM-DD` date. -/
structure Dt where
  y : ℕ
  m : ℕ
  d : ℕ
deriving DecidableEq

/-- The sort key of a parsed date: `datetime` comparison on valid calendar
dates is lexicographic on (year, month, day). -/
def dt_key (t : Dt) : ℕ := t.y * 10000 + t.m * 100 + t.d

/-- One race event as `_generate_race_timeline` consumes it; `date = none`
models a missing or unparseable date string. -/
structure RaceEvent where
  ename : String
  date : Option Dt
deriving DecidableEq

/-- The inner `parse_date` (lines 1324-1328): the parsed date, with
`datetime(2099, 12, 31)` substituted for a missing or unparseable one. -/
def parse_date (e : RaceEvent) : Dt := e.date.getD ⟨2099, 12, 31⟩

/-- The inputs of `_generate_race_timeline`: target race name (empty when
absent) and date, plus the structured A/B/C event lists. -/
structure RaceProfile where
  target_name : String
  target_date : Option Dt
  a_events : List RaceEvent
  b_events : List RaceEvent
  c_events : List RaceEvent
deriving DecidableEq

/-- Lines 1302-1312: with no structured A events and a named target race,
exactly one A event is synthesized from the target race. -/
def effective_a_events (p : RaceProfile) : List RaceEvent :=
  if p.a_events = [] ∧ p.target_name ≠ "" then [⟨p.target_name, p.target_date⟩]
  else p.a_events

/-- Lines 1314-1321: the merged event list with its priority tags. -/
def all_events (p : RaceProfile) : List (RaceEvent × String) :=
  (effective_a_events p).map (fun e => (e, "A")) ++
  p.b_events.map (fun e => (e, "B")) ++
  p.c_events.map (fun e => (e, "C"))

/-- The comparison under `all_events.sort(key=parse_date)`. -/
def event_le (a b : RaceEvent × String) : Prop :=
  dt_key (parse_date a.1) ≤ dt_key (parse_date b.1)

instance : DecidableRel event_le :=
  fun a b => inferInstanceAs (Decidable (_ ≤ _))

instance : IsTotal (RaceEvent × String) event_le :=
  ⟨fun a b => Nat.le_total _ _⟩

instance : IsTrans (RaceEvent × String) event_le :=
  ⟨fun _ _ _ => Nat.le_trans⟩

/-- Line 1330: the stable ascending sort by parsed date (Python
`list.sort`, modelled by the stable `insertionSort`). -/
def race_timeline (p : RaceProfile) : List (RaceEvent × String) :=
  List.insertionSort event_le (all_events p)

/-- The C10 counterexample profile: one undated A event and one B event
dated 2100-06-01. -/
def c10cex : RaceProfile :=
  ⟨"", none, [⟨"undated gravel race", none⟩],
    [⟨"dated road race", some ⟨2100, 6, 1⟩⟩], []⟩

/-- C10 counterexample: the undated event (key 2099-12-31) sorts BEFORE the
event dated 2100-06-01, so an event with a missing date does not sort after
all dated events. -/
theorem race_sort_cex :
    race_timeline c10cex =
      [(⟨"undated gravel race", none⟩, "A"),
       (⟨"dated road race", some ⟨2100, 6, 1⟩⟩, "B")] ∧
    (⟨"undated gravel race", none⟩ : RaceEvent).date = none ∧
    (⟨"dated road race", some ⟨2100, 6, 1⟩⟩ : RaceEvent).date ≠ none := by
  decide

/-- C10 (amended): the normalizer always returns a permutation of the
merged events sorted ascending by parsed date with missing/unparseable
dates keyed as 2099-12-31; hence an undated event sorts after all events
dated strictly before 2099-12-31 (but not after events dated 2099-12-31 or
later, as the counterexample shows); and when no structured A-event list is
supplied and a target race exists, the result contains exactly one A
event. -/
theorem race_timeline_rule (p : RaceProfile) :
    (race_timeline p).Sorted event_le ∧
    List.Perm (race_timeline p) (all_events p) ∧
    (race_timeline p).Pairwise
      (fun a b => a.1.date = none → ∀ t : Dt, b.1.date = some t →
        dt_key ⟨2099, 12, 31⟩ ≤ dt_key t) ∧
    (p.a_events = [] → p.target_name ≠ "" →
      (race_timeline p).countP (fun e => e.2 == "A") = 1) := by
  have hsorted : (race_timeline p).Sorted event_le :=
    List.sorted_insertionSort event_le (all_events p)
  have hperm : List.Perm (race_timeline p) (all_events p) :=
    List.perm_insertionSort event_le (all_events p)
  refine ⟨hsorted, hperm, ?_, ?_⟩
  · refine hsorted.imp ?_
    intro a b hab ha t hb
    unfold event_le at hab
    rwa [parse_date, parse_date, ha, hb] at hab
  · intro h1 h2
    rw [hperm.countP_eq]
    simp [all_events, effective_a_events, h1, h2, List.countP_append, List.countP_map,
      Function.comp]

/-! ### Purity of the derived record -/

/-- A profile with every field at its documented default (C6
counterexample ingredient). -/
def c6risk : RiskInputs := ⟨[], "", "", [], "", 0, ""⟩

/-- An ability input at the documented defaults (C6 counterexample
ingredient). -/
def c6ability : AbilityInputs := ⟨"0-2", 0, 0, "none", 0⟩

/-- C6 counterexample: the same profile (default risk/ability fields, target
race on day 70, FTP test on day 0) run on two different current days
produces different derived records — the race weeks-out drops from 10 to 9
— so the derived output is not a function of the profile alone: it reads
the current date through `datetime.now()` / `date.today()`. -/
theorem derived_not_date_free_cex :
    (derive_bundle c6risk c6ability 70 0 0).race_weeks_out = 10 ∧
    (derive_bundle c6risk c6ability 70 0 7).race_weeks_out = 9 ∧
    derive_bundle c6risk c6ability 70 0 0 ≠ derive_bundle c6risk c6ability 70 0 7 := by
  decide

/-- C6 (amended): the derived output is a pure function of the profile AND
the current date: runs on the same profile at the same date coincide, and
the classification fields (risk level, ability label) do not depend on the
date at all; only the race-calendar weeks-out and the FTP-age values
consume the current date, and they genuinely vary with it, as the
counterexample shows. -/
theorem derive_bundle_purity (r : RiskInputs) (a : AbilityInputs)
    (race_day ftp_day t1 t2 : ℤ) :
    (derive_bundle r a race_day ftp_day t1).risk_level =
      (derive_bundle r a race_day ftp_day t2).risk_level ∧
    (derive_bundle r a race_day ftp_day t1).ability =
      (derive_bundle r a race_day ftp_day t2).ability ∧
    (t1 = t2 →
      derive_bundle r a race_day ftp_day t1 = derive_bundle r a race_day ftp_day t2) :=
  ⟨rfl, rfl, fun h => h ▸ rfl⟩

end AthleteEngine
